import Mathlib

/-!
Verification of the RAG retrieval core of the lab-lens repository.

The Python sources embedded here are:
- src/rag/vector_db.py   (class VectorDatabase: add_documents, query)
- src/rag/file_qa.py     (class FileQA: ask_question)
- src/rag/patient_qa.py  (class PatientQA: ask_question)
- src/rag/document_processor.py (class DocumentProcessor: process_multiple_files)

Class RAGSystem is imported by file_qa.py and patient_qa.py from
src.rag.rag_system, a module that is not present in the source tree; its
retrieve method is modelled from the spec (section 4.4) and marked as such.

Similarity scores and backend distances are modelled as rationals; metadata
dictionaries are modelled by a record holding the two keys the retrieval
logic reads (document_name and hadm_id), each optional like dict.get.
External collaborators (the Gemini generation call, the ChromaDB backend,
the md5 hash, the PII redactor's text rewriting, the random sampler) enter
as parameters; the control flow around them is taken from the source.
-/

namespace LabLens

/-- Metadata dictionary attached to a chunk or query result.  Models the keys
the retrieval code reads via dict.get: document_name and hadm_id; a missing
key is none. -/
structure Metadata where
  documentName : Option String
  hadmId : Option Int
  deriving Repr, DecidableEq

/-- Retrieval result entry: the dictionaries with keys chunk, score, metadata
returned by RAGSystem.retrieve and consumed by FileQA.ask_question and
PatientQA.ask_question. -/
structure RChunk where
  chunk : String
  score : ℚ
  metadata : Metadata
  deriving Repr, DecidableEq

/-- Python truthiness of an optional integer (used by
`None if self.hadm_id else hadm_id` in patient_qa.py line 167): None and 0
are falsy, every other integer is truthy. -/
def optIntTruthy : Option Int → Bool
  | none => false
  | some x => decide (x ≠ 0)

namespace RAGSystem

/-- Modelled from the spec: RAGSystem.retrieve.  The module src/rag/rag_system.py
(class RAGSystem) is imported by file_qa.py and patient_qa.py but is missing
from the source tree; only its callers are available.  Per the base contract
of spec section 4.4, retrieve embeds the query, searches the index for up to
k candidates, filters out any result with score below min_score, and, when a
metadata filter (the hadm_id record identifier) is provided, restricts
results to chunks whose metadata id matches.  The multi-pass threshold
relaxation that section 4.4 also describes is implemented by the caller,
file_qa.py lines 478-491, which loops over exactly the spec's example
thresholds while passing each as min_score; retrieve itself is therefore
modelled as a single-threshold filter (an internal ladder would make that
caller loop and its min_score argument meaningless).  The parameter pool is
the ranked candidate list that the index search yields for the fixed
query. -/
def retrieve (pool : List RChunk) (k : ℕ) (minScore : ℚ)
    (hadmIdFilter : Option Int) : List RChunk :=
  let candidates :=
    match hadmIdFilter with
    | none => pool
    | some x => pool.filter (fun c => decide (c.metadata.hadmId = some x))
  (candidates.take k).filter (fun c => decide (minScore ≤ c.score))

end RAGSystem

namespace VectorDatabase

/-- One result row of a ChromaDB collection.query call: the parallel lists
ids, documents, metadatas, distances of vector_db.py are bundled entrywise. -/
structure QRow where
  id : String
  document : String
  metadata : Metadata
  distance : ℚ
  deriving Repr, DecidableEq

/-- VectorDatabase.query (vector_db.py lines 112-161) after the backend call.
The backend self.collection.query (ChromaDB, external) receives the where
filter and n_results unchanged and returns one row list per query embedding;
the method then converts each distance d to the score 1.0 - d and keeps an
entry iff score >= min_score, preserving order.  When the backend distance
lists are absent (empty outer list) the results are returned unfiltered. -/
def query (backendResults : List (List QRow)) (minScore : ℚ) : List (List QRow) :=
  if backendResults = [] then backendResults
  else backendResults.map (fun row => row.filter (fun r => decide (minScore ≤ 1 - r.distance)))

/-- VectorDatabase.add_documents id auto-generation (vector_db.py lines 99-104):
for position i, the id is document_name (default doc), the position, and a
text hash (hashlib.md5 hexdigest prefix, modelled by the parameter hash). -/
def autoIds (texts : List String) (metadatas : List Metadata)
    (hash : String → String) : List String :=
  (List.enum (texts.zip metadatas)).map
    (fun p => (p.2.2.documentName.getD "doc") ++ "_" ++ toString p.1 ++ "_" ++ hash p.2.1)

/-- VectorDatabase.add_documents (vector_db.py lines 76-110): raises ValueError
when texts or embeddings is empty, or when the three lists have unequal
lengths; otherwise adds to the collection (external backend) and returns the
given ids, auto-generating them when ids is None. -/
def add_documents (texts : List String) (embeddings : List (List ℚ))
    (metadatas : List Metadata) (ids : Option (List String))
    (hash : String → String) : Except String (List String) :=
  if texts = [] ∨ embeddings = [] then
    .error "texts and embeddings cannot be empty"
  else if texts.length ≠ embeddings.length ∨ texts.length ≠ metadatas.length then
    .error "texts, embeddings, and metadatas must have the same length"
  else
    match ids with
    | some l => .ok l
    | none => .ok (autoIds texts metadatas hash)

end VectorDatabase

namespace PatientQA

/-- Distinguishable outcomes of PatientQA.ask_question (patient_qa.py): the
Gemini-missing return (lines 154-159), the no-relevant-information return
(lines 175-181), and the answered return (lines 226-241) carrying the
retrieved sources and the assembled context.  The generated answer text
itself comes from the external Gemini call and is not modelled. -/
inductive Outcome where
  | geminiUnavailable
  | noRelevantInfo
  | answered (sources : List RChunk) (context : String)
  deriving Repr, DecidableEq

/-- State of a PatientQA instance as ask_question reads it: whether Gemini
initialized, the hadm_id fixed at construction (single-patient mode), the
retrieval k, and the ranked candidate pool of the modelled RAG system. -/
structure State where
  geminiOk : Bool
  selfHadmId : Option Int
  ragK : ℕ
  pool : List RChunk
  deriving Repr

/-- PatientQA context assembly (patient_qa.py lines 184-191): each retrieved
chunk becomes a Section block, blocks joined by newline. -/
def build_context (retrieved : List RChunk) : String :=
  String.intercalate "\n"
    ((List.enumFrom 1 retrieved).map
      (fun p => "[Section " ++ toString p.1 ++ "]\n" ++ p.2.chunk ++ "\n"))

/-- PatientQA.ask_question (patient_qa.py lines 136-253).  In single-patient
mode (self.hadm_id truthy) the filter is suppressed, otherwise the caller's
hadm_id is forwarded; retrieval is a single call at min_score 0.3; an empty
retrieval yields the no-relevant-information return. -/
def ask_question (st : State) (hadmId : Option Int) : Outcome :=
  if !st.geminiOk then .geminiUnavailable
  else
    let filterHadmId := if optIntTruthy st.selfHadmId then none else hadmId
    let retrieved := RAGSystem.retrieve st.pool st.ragK (3/10) filterHadmId
    if retrieved = [] then .noRelevantInfo
    else .answered retrieved (build_context retrieved)

end PatientQA

namespace FileQA

/-- Which not-ready condition produced the system-error return of
FileQA.ask_question: embedding model missing (lines 453-456) or index not
built (lines 458-469). -/
inductive ErrKind where
  | noEmbedding
  | noIndex
  deriving Repr, DecidableEq

/-- Distinguishable outcomes of FileQA.ask_question (file_qa.py lines
400-659).  The answered outcome carries the answer_source label, the (possibly
redacted) sources list, and the assembled document context; the answer text
itself comes from the external Gemini call and is not modelled. -/
inductive Outcome where
  | geminiUnavailable
  | noDocuments
  | localNoMatch
  | localExcerpts (sources : List RChunk)
  | systemError (kind : ErrKind)
  | answered (answerSource : String) (sources : List RChunk) (context : String)
  deriving Repr, DecidableEq

/-- State of a FileQA instance as ask_question reads it: flags mirroring
self.gemini, self.rag.chunks / self.rag.metadata, privacy and external-call
modes, self.rag.embedding_model, the two index-built checks (FAISS index,
normalized-embeddings fallback), the retrieval k, and the ranked candidate
pool of the modelled RAG system. -/
structure State where
  geminiOk : Bool
  chunks : List String
  metadata : List Metadata
  privacyMode : Bool
  allowExternalCalls : Bool
  embeddingModelOk : Bool
  hasFaissIndex : Bool
  hasNumpyIndex : Bool
  ragK : ℕ
  pool : List RChunk
  deriving Repr

/-- redact_sources (privacy/redaction.py lines 130-141): copies each source,
rewriting a non-empty chunk text with the redactor (the text rewriting
itself, redact_text, is the external parameter rt); list length and all other
fields are preserved. -/
def redact_sources (rt : String → String) (sources : List RChunk) : List RChunk :=
  sources.map (fun s => { s with chunk := if s.chunk ≠ "" then rt s.chunk else s.chunk })

/-- Threshold ladder of FileQA.ask_question (file_qa.py line 480). -/
def thresholds : List ℚ := [3/10, 2/10, 1/10, 0]

/-- The retry loop of FileQA.ask_question (file_qa.py lines 482-487): try each
threshold in order, stopping at the first non-empty retrieval; empty when
every tier is empty. -/
def threshold_ladder (pool : List RChunk) (k : ℕ) : List ℚ → List RChunk
  | [] => []
  | th :: rest =>
    let r := RAGSystem.retrieve pool k th none
    if r = [] then threshold_ladder pool k rest else r

/-- Context assembly used for both the strong and the weak tier (file_qa.py
lines 502-518): each chunk becomes a Source block tagged with its document
name, blocks joined by blank lines. -/
def build_context (cs : List RChunk) : String :=
  String.intercalate "\n\n"
    ((List.enumFrom 1 cs).map
      (fun p => "[Source " ++ toString p.1 ++ ": " ++
        p.2.metadata.documentName.getD "Document" ++ "]\n" ++ p.2.chunk))

/-- Context assembly for the no-match tier (file_qa.py lines 520-534): the
sampled chunk indices (random.sample, modelled by the parameter sampleIdx)
become From-document blocks joined by blank lines. -/
def sample_context (chunks : List String) (metadata : List Metadata)
    (sampleIdx : List ℕ) : String :=
  String.intercalate "\n\n"
    (sampleIdx.map (fun idx =>
      "[From document: " ++ ((metadata.getD idx ⟨none, none⟩).documentName.getD "Document") ++
        "]\n" ++ chunks.getD idx ""))

/-- Strict local mode branch of FileQA.ask_question (file_qa.py lines
426-450): retrieval at min(rag_k, 5) and min_score 0, redaction when privacy
mode is on, and an excerpts return instead of a generation call. -/
def local_branch (st : State) (rt : String → String) : Outcome :=
  let retrieved := RAGSystem.retrieve st.pool (min st.ragK 5) 0 none
  let safe := if st.privacyMode then redact_sources rt retrieved else retrieved
  if safe = [] then .localNoMatch else .localExcerpts safe

/-- Main answering branch of FileQA.ask_question (file_qa.py lines 475-650):
the threshold ladder, the strong/weak/none context tiers around the 0.2
good-match threshold, the answer_source label, and the (possibly redacted)
sources of the returned dictionary. -/
def main_branch (st : State) (sampleIdx : List ℕ) (rt : String → String) : Outcome :=
  let retrieved := threshold_ladder st.pool st.ragK thresholds
  let goodChunks := retrieved.filter (fun c => decide ((2:ℚ)/10 < c.score))
  let documentContext :=
    if retrieved ≠ [] then
      if goodChunks ≠ [] then build_context goodChunks
      else build_context (retrieved.take 3)
    else if 0 < st.chunks.length then sample_context st.chunks st.metadata sampleIdx
    else ""
  let answerSource :=
    if retrieved ≠ [] ∧ goodChunks ≠ [] then "document"
    else if retrieved ≠ [] then "document_and_knowledge"
    else "general_knowledge"
  let safeSources := if st.privacyMode then redact_sources rt retrieved else retrieved
  .answered answerSource safeSources documentContext

/-- FileQA.ask_question (file_qa.py lines 400-659): the guard chain in source
order - Gemini missing, no chunks loaded, strict local mode, embedding model
missing, index not built - then the main answering branch. -/
def ask_question (st : State) (sampleIdx : List ℕ) (rt : String → String) : Outcome :=
  if !st.geminiOk then .geminiUnavailable
  else if st.chunks = [] then .noDocuments
  else if !st.allowExternalCalls then local_branch st rt
  else if !st.embeddingModelOk then .systemError .noEmbedding
  else if !st.hasFaissIndex && !st.hasNumpyIndex then .systemError .noIndex
  else main_branch st sampleIdx rt

end FileQA

namespace DocumentProcessor

/-- Python str.strip as used by document_processor.py line 286: drops
whitespace from both ends of the string.  Defined structurally on the
character list so concrete instances evaluate. -/
def strip (s : String) : String :=
  ⟨((s.data.dropWhile Char.isWhitespace).reverse.dropWhile Char.isWhitespace).reverse⟩

/-- Per-file result check of process_multiple_files (document_processor.py
line 286): a file outcome (process_file raising, modelled as error, or
returning a document with extracted text) contributes a result exactly when
its text is non-empty after stripping. -/
def extract_ok : Except String String → Option String
  | .ok t => if strip t ≠ "" then some t else none
  | .error _ => none

/-- A file fails (document_processor.py lines 288-295) when process_file
raised or the extracted text is empty after stripping. -/
def file_fails (f : Except String String) : Bool := (extract_ok f).isNone

/-- DocumentProcessor.process_multiple_files (document_processor.py lines
269-302): collects the documents with non-blank extracted text, collects an
error per failed file, and raises ValueError exactly when there are errors
and no results. -/
def process_multiple_files (files : List (Except String String)) :
    Except String (List String) :=
  let results := files.filterMap extract_ok
  let errors := files.filter file_fails
  if !errors.isEmpty && results.isEmpty then .error "All files failed to process"
  else .ok results

end DocumentProcessor

/-- Example fixture: a one-chunk candidate pool whose single score 1/4 misses
the strict 0.3 threshold but clears the 0.2 tier. -/
def examplePatientPool : List RChunk :=
  [⟨"Aspirin chunk", (1:ℚ)/4, ⟨some "doc", some 7⟩⟩]

/-- Example fixture: a PatientQA instance in multi-patient mode (no hadm_id at
construction) over examplePatientPool. -/
def examplePatientState : PatientQA.State :=
  ⟨true, none, 5, examplePatientPool⟩

/-- Example fixture: a fully initialized FileQA instance whose pool has one
strong match (score 1/2). -/
def exampleStrongState : FileQA.State :=
  ⟨true, ["alpha"], [⟨some "doc.txt", none⟩], false, true, true, false, true, 5,
   [⟨"alpha", (1:ℚ)/2, ⟨some "doc.txt", none⟩⟩]⟩

/-- Example fixture: a fully initialized FileQA instance with one loaded chunk
whose pool only has a negative-score candidate, so every threshold tier of
the ladder comes back empty. -/
def exampleNoMatchState : FileQA.State :=
  ⟨true, ["alpha"], [⟨some "report.txt", none⟩], false, true, true, false, true, 5,
   [⟨"weak", -((1:ℚ)/2), ⟨some "report.txt", none⟩⟩]⟩

end LabLens

namespace LabLens

/-- Every chunk returned by the modelled retrieve under a hadm_id filter
matches the filter. -/
theorem retrieve_hadm_filter {pool : List RChunk} {k : ℕ} {s : ℚ} {x : Int}
    {c : RChunk} (hc : c ∈ RAGSystem.retrieve pool k s (some x)) :
    c.metadata.hadmId = some x := by
  unfold RAGSystem.retrieve at hc
  have h1 := (List.mem_filter.mp hc).1
  have h2 := (List.take_sublist _ _).subset h1
  exact of_decide_eq_true (List.mem_filter.mp h2).2

/-- Claim C1: with a metadata filter, retrieval never returns a chunk whose
metadata identifier differs from the filtered value.  PatientQA.ask_question
outside single-patient mode forwards the caller's hadm_id to retrieval, so
every source of an answered outcome carries that hadm_id; and
VectorDatabase.query forwards the where filter to the backend, so when the
backend rows satisfy the filter every output row does too. -/
theorem c1_metadata_filter (st : PatientQA.State) (x : Int)
    (hmode : st.selfHadmId = none)
    (backend : List (List VectorDatabase.QRow)) (m : ℚ)
    (hback : ∀ row ∈ backend, ∀ r ∈ row, r.metadata.hadmId = some x) :
    (∀ srcs ctx, PatientQA.ask_question st (some x) = .answered srcs ctx →
      ∀ c ∈ srcs, c.metadata.hadmId = some x) ∧
    (∀ row ∈ VectorDatabase.query backend m, ∀ r ∈ row,
      r.metadata.hadmId = some x) := by
  constructor
  · intro srcs ctx heq c hcm
    rw [PatientQA.ask_question] at heq
    by_cases hgem : st.geminiOk = true
    · rw [hmode] at heq
      simp only [hgem, optIntTruthy, Bool.not_true, Bool.false_eq_true,
        if_false] at heq
      split at heq
      · simp at heq
      · injection heq with h1 h2
        subst h1
        exact retrieve_hadm_filter hcm
    · simp only [Bool.not_eq_true] at hgem
      rw [hgem] at heq
      simp at heq
  · intro row hrow r hr
    by_cases hne : backend = []
    · subst hne
      rw [VectorDatabase.query, if_pos rfl] at hrow
      cases hrow
    · rw [VectorDatabase.query, if_neg hne] at hrow
      rcases List.mem_map.mp hrow with ⟨row0, hrow0, rfl⟩
      exact hback row0 hrow0 r (List.mem_filter.mp hr).1

/-- Claim C1 witness: a concrete multi-patient state queried with hadm_id 7 on
a pool and a backend whose rows carry hadm_id 7. -/
theorem c1_witness :
    (∀ srcs ctx,
      PatientQA.ask_question ⟨true, none, 5, [⟨"t", 1, ⟨some "d", some 7⟩⟩]⟩ (some 7) =
        .answered srcs ctx → ∀ c ∈ srcs, c.metadata.hadmId = some 7) ∧
    (∀ row ∈ VectorDatabase.query [[⟨"i", "d", ⟨none, some 7⟩, 0⟩]] 0, ∀ r ∈ row,
      r.metadata.hadmId = some 7) :=
  c1_metadata_filter ⟨true, none, 5, [⟨"t", 1, ⟨some "d", some 7⟩⟩]⟩ 7 rfl
    [[⟨"i", "d", ⟨none, some 7⟩, 0⟩]] 0 (by decide)

/-- Claim C7: VectorDatabase.query converts each backend distance d to the
similarity score 1.0 - d and keeps a result iff that score is at least
min_score; with min_score = 0 every result with distance greater than 1 is
discarded. -/
theorem c7_score_conversion_filter (backend : List (List VectorDatabase.QRow)) (m : ℚ)
    (i : ℕ) (rowIn : List VectorDatabase.QRow) (hi : backend[i]? = some rowIn) :
    ∃ rowOut, (VectorDatabase.query backend m)[i]? = some rowOut ∧
      (∀ r, r ∈ rowOut ↔ r ∈ rowIn ∧ m ≤ 1 - r.distance) ∧
      (m = 0 → ∀ r ∈ rowOut, r.distance ≤ 1) := by
  have hne : backend ≠ [] := by
    intro h; rw [h] at hi; simp at hi
  refine ⟨rowIn.filter (fun r => decide (m ≤ 1 - r.distance)), ?_, ?_, ?_⟩
  · rw [VectorDatabase.query, if_neg hne, List.getElem?_map, hi]
    rfl
  · intro r
    simp [List.mem_filter]
  · intro hm r hr
    rw [List.mem_filter] at hr
    have := of_decide_eq_true hr.2
    rw [hm] at this
    linarith

/-- Claim C7 witness: a concrete query with min_score 0 on a two-entry backend
row, one entry at distance 3/2 (discarded) and one at 1/2 (kept). -/
theorem c7_witness :
    ∃ rowOut,
      (VectorDatabase.query
        [[⟨"a", "docA", ⟨some "f", none⟩, 3/2⟩, ⟨"b", "docB", ⟨some "f", none⟩, 1/2⟩]]
        0)[0]? = some rowOut ∧
      (∀ r, r ∈ rowOut ↔
        r ∈ [(⟨"a", "docA", ⟨some "f", none⟩, 3/2⟩ : VectorDatabase.QRow),
             ⟨"b", "docB", ⟨some "f", none⟩, 1/2⟩] ∧ (0:ℚ) ≤ 1 - r.distance) ∧
      ((0:ℚ) = 0 → ∀ r ∈ rowOut, r.distance ≤ 1) :=
  c7_score_conversion_filter
    [[⟨"a", "docA", ⟨some "f", none⟩, 3/2⟩, ⟨"b", "docB", ⟨some "f", none⟩, 1/2⟩]]
    0 0 _ rfl

/-- Claim C8: the min_score filtering in VectorDatabase.query preserves the
backend ranking order: if an input distance row is non-decreasing, the
corresponding filtered output row is also non-decreasing. -/
theorem c8_ranking_preserved (backend : List (List VectorDatabase.QRow)) (m : ℚ)
    (i : ℕ) (rowIn rowOut : List VectorDatabase.QRow)
    (hi : backend[i]? = some rowIn)
    (ho : (VectorDatabase.query backend m)[i]? = some rowOut)
    (hs : rowIn.Pairwise (fun a b => a.distance ≤ b.distance)) :
    rowOut.Pairwise (fun a b => a.distance ≤ b.distance) := by
  have hne : backend ≠ [] := by
    intro h; rw [h] at hi; simp at hi
  rw [VectorDatabase.query, if_neg hne, List.getElem?_map, hi] at ho
  simp only [Option.map_some'] at ho
  rw [← Option.some_inj.mp ho]
  exact hs.sublist (List.filter_sublist _)

/-- On the fully-initialized external-calls path, FileQA.ask_question runs its
main answering branch. -/
theorem ask_question_eq_main (st : FileQA.State) (sampleIdx : List ℕ)
    (rt : String → String) (hg : st.geminiOk = true) (hc : st.chunks ≠ [])
    (hx : st.allowExternalCalls = true) (he : st.embeddingModelOk = true)
    (hix : st.hasFaissIndex = true ∨ st.hasNumpyIndex = true) :
    FileQA.ask_question st sampleIdx rt = FileQA.main_branch st sampleIdx rt := by
  rw [FileQA.ask_question]
  rcases hix with h | h <;> simp [hg, hc, hx, he, h]

/-- The threshold ladder returns a non-empty result whenever some tier's
retrieval is non-empty. -/
theorem threshold_ladder_ne_nil (pool : List RChunk) (k : ℕ) :
    ∀ ths : List ℚ, (∃ th ∈ ths, RAGSystem.retrieve pool k th none ≠ []) →
      FileQA.threshold_ladder pool k ths ≠ [] := by
  intro ths
  induction ths with
  | nil => rintro ⟨th, h, _⟩; cases h
  | cons t rest ih =>
    rintro ⟨th, hmem, hne⟩
    simp only [FileQA.threshold_ladder]
    split
    · next hemp =>
      rcases List.mem_cons.mp hmem with rfl | hmem'
      · exact absurd hemp hne
      · exact ih ⟨th, hmem', hne⟩
    · next hemp => exact hemp

/-- Evaluation of the modelled retrieval on the strong-match fixture at the
strict 0.3 threshold. -/
theorem exampleStrongState_retrieve :
    RAGSystem.retrieve exampleStrongState.pool exampleStrongState.ragK (3/10) none =
      [⟨"alpha", (1:ℚ)/2, ⟨some "doc.txt", none⟩⟩] := by
  norm_num [RAGSystem.retrieve, exampleStrongState, List.filter_cons]

/-- Evaluation of the threshold ladder on the strong-match fixture: the first
tier already succeeds. -/
theorem exampleStrongState_ladder :
    FileQA.threshold_ladder exampleStrongState.pool exampleStrongState.ragK
      FileQA.thresholds = [⟨"alpha", (1:ℚ)/2, ⟨some "doc.txt", none⟩⟩] := by
  simp [FileQA.threshold_ladder, FileQA.thresholds, exampleStrongState_retrieve]

/-- Evaluation of the threshold ladder on the no-match fixture: every tier,
down to threshold 0, rejects the negative-score candidate. -/
theorem exampleNoMatchState_ladder :
    FileQA.threshold_ladder exampleNoMatchState.pool exampleNoMatchState.ragK
      FileQA.thresholds = [] := by
  norm_num [FileQA.threshold_ladder, FileQA.thresholds, RAGSystem.retrieve,
    exampleNoMatchState, List.filter_cons]

/-- Claim C2 counterexample: the claim cites PatientQA.ask_question as a
retrieval path with the 0.3/0.2/0.1/0.0 relaxation ladder, but
patient_qa.py issues a single retrieval call at min_score 0.3 (lines
168-173) and returns its could-not-find outcome when that call is empty
(lines 175-181).  On a pool whose only score is 1/4, the strict tier is
empty, the 0.2 tier is non-empty, and PatientQA.ask_question still returns
the no-relevant-information outcome with no sources. -/
theorem c2_counterexample :
    RAGSystem.retrieve examplePatientState.pool examplePatientState.ragK (3/10) none = [] ∧
    RAGSystem.retrieve examplePatientState.pool examplePatientState.ragK (2/10) none ≠ [] ∧
    PatientQA.ask_question examplePatientState none = .noRelevantInfo := by
  have hempty :
      RAGSystem.retrieve examplePatientState.pool examplePatientState.ragK (3/10) none = [] := by
    norm_num [RAGSystem.retrieve, examplePatientState, examplePatientPool, List.filter_cons]
  refine ⟨hempty, ?_, ?_⟩
  · norm_num [RAGSystem.retrieve, examplePatientState, examplePatientPool, List.filter_cons]
  · rw [PatientQA.ask_question]
    simp only [examplePatientState, optIntTruthy] at hempty ⊢
    simp [hempty]

/-- Claim C2 amended: FileQA.ask_question retries retrieval at thresholds
0.3, 0.2, 0.1, 0.0 with the same k until a tier is non-empty, so its answered
outcome has non-empty sources whenever any tier finds something;
PatientQA.ask_question, by contrast, performs a single retrieval call at
min_score 0.3 and returns its no-relevant-information outcome without
retrying when that call is empty. -/
theorem c2_threshold_relaxation (st : FileQA.State) (sampleIdx : List ℕ)
    (rt : String → String) (hg : st.geminiOk = true) (hc : st.chunks ≠ [])
    (hx : st.allowExternalCalls = true) (he : st.embeddingModelOk = true)
    (hix : st.hasFaissIndex = true ∨ st.hasNumpyIndex = true)
    (hth : ∃ th ∈ FileQA.thresholds, RAGSystem.retrieve st.pool st.ragK th none ≠ []) :
    (∃ a srcs ctx, FileQA.ask_question st sampleIdx rt = .answered a srcs ctx ∧ srcs ≠ []) ∧
    (∀ pst : PatientQA.State, ∀ h : Option Int, pst.geminiOk = true →
      RAGSystem.retrieve pst.pool pst.ragK (3/10)
        (if optIntTruthy pst.selfHadmId then none else h) = [] →
      PatientQA.ask_question pst h = .noRelevantInfo) := by
  have hlad := threshold_ladder_ne_nil st.pool st.ragK FileQA.thresholds hth
  constructor
  · rw [ask_question_eq_main st sampleIdx rt hg hc hx he hix, FileQA.main_branch]
    refine ⟨_, _, _, rfl, ?_⟩
    by_cases hp : st.privacyMode = true <;>
      simp [hp, FileQA.redact_sources, hlad]
  · intro pst h hg2 hr
    rw [PatientQA.ask_question]
    simp [hg2, hr]

/-- Claim C2 witness: on the strong-match fixture the first tier is non-empty
and the answered outcome has non-empty sources. -/
theorem c2_witness :
    ∃ a srcs ctx, FileQA.ask_question exampleStrongState [] id = .answered a srcs ctx ∧
      srcs ≠ [] :=
  (c2_threshold_relaxation exampleStrongState [] id rfl (by decide) rfl rfl (Or.inr rfl)
    ⟨3/10, by simp [FileQA.thresholds], by rw [exampleStrongState_retrieve]; simp⟩).1

/-- Claim C3: when the system is not ready - the embedding model missing or
the index never built - FileQA.ask_question returns a system-error outcome,
a flagged value distinguishable from every answered outcome (in particular
from an answered outcome with an empty source list). -/
theorem c3_not_ready_hard_error (st : FileQA.State) (sampleIdx : List ℕ)
    (rt : String → String) (hg : st.geminiOk = true) (hc : st.chunks ≠ [])
    (hx : st.allowExternalCalls = true)
    (hnr : st.embeddingModelOk = false ∨
      (st.hasFaissIndex = false ∧ st.hasNumpyIndex = false)) :
    (∃ k, FileQA.ask_question st sampleIdx rt = .systemError k) ∧
    ∀ a srcs ctx, FileQA.ask_question st sampleIdx rt ≠ .answered a srcs ctx := by
  have h1 : ∃ k, FileQA.ask_question st sampleIdx rt = .systemError k := by
    rcases hnr with he | ⟨hf, hn⟩
    · exact ⟨.noEmbedding, by rw [FileQA.ask_question]; simp [hg, hc, hx, he]⟩
    · by_cases he : st.embeddingModelOk = true
      · exact ⟨.noIndex, by rw [FileQA.ask_question]; simp [hg, hc, hx, he, hf, hn]⟩
      · simp only [Bool.not_eq_true] at he
        exact ⟨.noEmbedding, by rw [FileQA.ask_question]; simp [hg, hc, hx, he]⟩
  rcases h1 with ⟨k, hk⟩
  exact ⟨⟨k, hk⟩, fun a srcs ctx hcon => by rw [hk] at hcon; cases hcon⟩

/-- Claim C3 witness: a concrete loaded state whose embedding model is gone
yields a system-error outcome. -/
theorem c3_witness :
    (∃ k, FileQA.ask_question
      ⟨true, ["c"], [⟨some "d", none⟩], false, true, false, false, false, 5, []⟩ [] id =
        .systemError k) ∧
    ∀ a srcs ctx, FileQA.ask_question
      ⟨true, ["c"], [⟨some "d", none⟩], false, true, false, false, false, 5, []⟩ [] id ≠
        .answered a srcs ctx :=
  c3_not_ready_hard_error _ [] id rfl (by decide) rfl (Or.inl rfl)

/-- Claim C4: with no chunks loaded (and the generation model present, the
guard checked first in the source), FileQA.ask_question returns the flagged
no-documents outcome - a total return value, not an exception, and not a
system-error outcome. -/
theorem c4_empty_index_flagged (st : FileQA.State) (sampleIdx : List ℕ)
    (rt : String → String) (hg : st.geminiOk = true) (hc : st.chunks = []) :
    FileQA.ask_question st sampleIdx rt = .noDocuments ∧
    ∀ k, FileQA.ask_question st sampleIdx rt ≠ .systemError k := by
  have h1 : FileQA.ask_question st sampleIdx rt = .noDocuments := by
    rw [FileQA.ask_question]; simp [hg, hc]
  exact ⟨h1, fun k hcon => by rw [h1] at hcon; cases hcon⟩

/-- Claim C4 witness: a fresh system with no chunks returns the no-documents
outcome. -/
theorem c4_witness :
    FileQA.ask_question ⟨true, [], [], false, true, true, false, true, 5, []⟩ [] id =
      .noDocuments ∧
    ∀ k, FileQA.ask_question ⟨true, [], [], false, true, true, false, true, 5, []⟩ [] id ≠
      .systemError k :=
  c4_empty_index_flagged _ [] id rfl rfl

/-- Claim C8 witness: a sorted two-entry backend row stays sorted after
filtering at min_score 1/2. -/
theorem c8_witness :
    ([(⟨"a", "dA", ⟨none, none⟩, 1/4⟩ : VectorDatabase.QRow),
      ⟨"b", "dB", ⟨none, none⟩, 3/4⟩].filter
        (fun r => decide ((1:ℚ)/2 ≤ 1 - r.distance))).Pairwise
      (fun a b => a.distance ≤ b.distance) :=
  c8_ranking_preserved
    [[⟨"a", "dA", ⟨none, none⟩, 1/4⟩, ⟨"b", "dB", ⟨none, none⟩, 3/4⟩]]
    (1/2) 0 _ _ rfl
    (by rw [VectorDatabase.query, if_neg (by simp), List.getElem?_map]; rfl)
    (by norm_num [List.pairwise_cons])

/-- Claim C5: on the main answering path, context assembly is tiered exactly
by the 0.2 strong-match threshold: when some retrieved result scores strictly
above 0.2, the context is built from only those strong results and the
answer is labeled document; otherwise the top 3 retrieved results are used
and the answer is labeled document_and_knowledge. -/
theorem c5_context_tiering (st : FileQA.State) (sampleIdx : List ℕ)
    (rt : String → String) (hg : st.geminiOk = true) (hc : st.chunks ≠ [])
    (hx : st.allowExternalCalls = true) (he : st.embeddingModelOk = true)
    (hix : st.hasFaissIndex = true ∨ st.hasNumpyIndex = true)
    (hne : FileQA.threshold_ladder st.pool st.ragK FileQA.thresholds ≠ []) :
    ((∃ c ∈ FileQA.threshold_ladder st.pool st.ragK FileQA.thresholds, (2:ℚ)/10 < c.score) →
      FileQA.ask_question st sampleIdx rt = .answered "document"
        (if st.privacyMode then
          FileQA.redact_sources rt (FileQA.threshold_ladder st.pool st.ragK FileQA.thresholds)
         else FileQA.threshold_ladder st.pool st.ragK FileQA.thresholds)
        (FileQA.build_context
          ((FileQA.threshold_ladder st.pool st.ragK FileQA.thresholds).filter
            (fun c => decide ((2:ℚ)/10 < c.score))))) ∧
    ((∀ c ∈ FileQA.threshold_ladder st.pool st.ragK FileQA.thresholds, c.score ≤ (2:ℚ)/10) →
      FileQA.ask_question st sampleIdx rt = .answered "document_and_knowledge"
        (if st.privacyMode then
          FileQA.redact_sources rt (FileQA.threshold_ladder st.pool st.ragK FileQA.thresholds)
         else FileQA.threshold_ladder st.pool st.ragK FileQA.thresholds)
        (FileQA.build_context
          ((FileQA.threshold_ladder st.pool st.ragK FileQA.thresholds).take 3))) := by
  rw [ask_question_eq_main st sampleIdx rt hg hc hx he hix, FileQA.main_branch]
  constructor
  · rintro ⟨c0, hc0, hs0⟩
    have hgood : (FileQA.threshold_ladder st.pool st.ragK FileQA.thresholds).filter
        (fun c => decide ((2:ℚ)/10 < c.score)) ≠ [] := by
      intro hnil
      exact absurd (by simpa using hs0) ((List.filter_eq_nil_iff.mp hnil) c0 hc0)
    simp [hne, hgood]
  · intro hall
    have hgood : (FileQA.threshold_ladder st.pool st.ragK FileQA.thresholds).filter
        (fun c => decide ((2:ℚ)/10 < c.score)) = [] :=
      List.filter_eq_nil_iff.mpr (fun c hcm => by
        simp only [decide_eq_true_eq]
        exact not_lt.mpr (hall c hcm))
    simp [hne, hgood]

/-- Claim C5 witness: the strong-match fixture yields an answered outcome
labeled document. -/
theorem c5_witness :
    ∃ srcs ctx, FileQA.ask_question exampleStrongState [] id = .answered "document" srcs ctx := by
  obtain ⟨h1, _⟩ := c5_context_tiering exampleStrongState [] id rfl (by decide) rfl rfl
    (Or.inr rfl) (by rw [exampleStrongState_ladder]; simp)
  exact ⟨_, _, h1 ⟨⟨"alpha", (1:ℚ)/2, ⟨some "doc.txt", none⟩⟩,
    by rw [exampleStrongState_ladder]; simp, by norm_num⟩⟩

/-- Claim C6 counterexample: the claim says the no-results-but-chunks-exist
outcome is labeled as best-effort document context, distinct from the
empty-corpus general-knowledge-only label; but file_qa.py lines 632-638
assign exactly the label general_knowledge to that outcome (the empty-corpus
case is instead the earlier flagged no-documents return).  On a loaded state
whose every retrieval tier is empty, the sampled-chunk context is built yet
the answer_source is the string general_knowledge. -/
theorem c6_counterexample :
    FileQA.ask_question exampleNoMatchState [0] id =
      .answered "general_knowledge" [] "[From document: report.txt]\nalpha" := by
  rw [ask_question_eq_main exampleNoMatchState [0] id rfl (by decide) rfl rfl (Or.inr rfl),
    FileQA.main_branch, exampleNoMatchState_ladder]
  simp only [FileQA.sample_context, exampleNoMatchState]
  norm_num [FileQA.redact_sources]
  rfl

/-- Claim C6 amended: when retrieval returns nothing but chunks exist, the
assembler builds context from min(3, chunk count) randomly sampled chunks,
each prefixed with a From-document source tag, and returns an answered
outcome (distinguishable from the empty-corpus flagged no-documents return);
its answer_source label, however, is general_knowledge, the same label as
the no-context tier, not a distinct best-effort label. -/
theorem c6_sample_tier (st : FileQA.State) (sampleIdx : List ℕ) (rt : String → String)
    (hg : st.geminiOk = true) (hc : st.chunks ≠ [])
    (hx : st.allowExternalCalls = true) (he : st.embeddingModelOk = true)
    (hix : st.hasFaissIndex = true ∨ st.hasNumpyIndex = true)
    (hempty : FileQA.threshold_ladder st.pool st.ragK FileQA.thresholds = [])
    (hlen : sampleIdx.length = min 3 st.chunks.length) :
    ∃ parts : List String, parts.length = min 3 st.chunks.length ∧
      (∀ p ∈ parts, ∃ nm ch, p = "[From document: " ++ nm ++ "]\n" ++ ch) ∧
      FileQA.ask_question st sampleIdx rt =
        .answered "general_knowledge" [] (String.intercalate "\n\n" parts) := by
  refine ⟨sampleIdx.map (fun idx =>
      "[From document: " ++ ((st.metadata.getD idx ⟨none, none⟩).documentName.getD "Document") ++
        "]\n" ++ st.chunks.getD idx ""), ?_, ?_, ?_⟩
  · rw [List.length_map, hlen]
  · intro p hp
    rcases List.mem_map.mp hp with ⟨idx, _, rfl⟩
    exact ⟨_, _, rfl⟩
  · rw [ask_question_eq_main st sampleIdx rt hg hc hx he hix, FileQA.main_branch, hempty]
    have hlen0 : 0 < st.chunks.length := List.length_pos.mpr hc
    simp [hlen0, FileQA.sample_context, FileQA.redact_sources]

/-- Claim C6 witness: the no-match fixture with the sampler choosing index 0
produces one tagged part. -/
theorem c6_witness :
    ∃ parts : List String, parts.length = min 3 (exampleNoMatchState.chunks.length) ∧
      (∀ p ∈ parts, ∃ nm ch, p = "[From document: " ++ nm ++ "]\n" ++ ch) ∧
      FileQA.ask_question exampleNoMatchState [0] id =
        .answered "general_knowledge" [] (String.intercalate "\n\n" parts) :=
  c6_sample_tier exampleNoMatchState [0] id rfl (by decide) rfl rfl (Or.inr rfl)
    exampleNoMatchState_ladder (by decide)

/-- Positional lookup in a zipped pair of lists. -/
theorem zip_getElem?_of {α β : Type} :
    ∀ (l1 : List α) (l2 : List β) (i : ℕ) (a : α) (b : β),
      l1[i]? = some a → l2[i]? = some b → (l1.zip l2)[i]? = some (a, b) := by
  intro l1
  induction l1 with
  | nil => intro l2 i a b h1 _; simp at h1
  | cons x xs ih =>
    intro l2 i a b h1 h2
    cases l2 with
    | nil => simp at h2
    | cons y ys =>
      cases i with
      | zero =>
        simp only [List.getElem?_cons_zero, Option.some.injEq] at h1 h2
        subst h1; subst h2
        simp [List.zip_cons_cons]
      | succ n =>
        simp only [List.zip_cons_cons, List.getElem?_cons_succ] at h1 h2 ⊢
        exact ih ys n a b h1 h2

/-- Claim C9 counterexample: the claim says every valid call returns a list of
ids whose length equals the number of texts, but when ids is supplied the
method returns it unchanged without validating its length: one text with two
supplied ids passes validation and returns two ids. -/
theorem c9_counterexample :
    VectorDatabase.add_documents ["t"] [[1]] [⟨some "d", none⟩] (some ["a", "b"])
        (fun _ => "h") = .ok ["a", "b"] ∧
    (["a", "b"] : List String).length ≠ (["t"] : List String).length := by
  refine ⟨?_, by decide⟩
  rw [VectorDatabase.add_documents.eq_def, if_neg (by simp), if_neg (by simp)]

/-- Claim C9 amended: add_documents raises ValueError exactly when texts is
empty, embeddings is empty, or the three lists have unequal lengths; when ids
is not supplied each returned id is auto-generated from document name,
position, and text hash, with one id per text; when ids is supplied the
method returns the supplied list unchanged (its length is not validated). -/
theorem c9_add_documents_contract (texts : List String) (embeddings : List (List ℚ))
    (metadatas : List Metadata) (ids : Option (List String)) (hash : String → String) :
    ((∃ e, VectorDatabase.add_documents texts embeddings metadatas ids hash = .error e) ↔
      (texts = [] ∨ embeddings = [] ∨
        ¬(texts.length = embeddings.length ∧ texts.length = metadatas.length))) ∧
    (∀ l, VectorDatabase.add_documents texts embeddings metadatas none hash = .ok l →
      l.length = texts.length ∧
      ∀ (i : ℕ) (t : String) (md : Metadata), texts[i]? = some t → metadatas[i]? = some md →
        l[i]? = some ((md.documentName.getD "doc") ++ "_" ++ toString i ++ "_" ++ hash t)) ∧
    (∀ l₀, ids = some l₀ →
      VectorDatabase.add_documents texts embeddings metadatas ids hash = .ok l₀ ∨
      ∃ e, VectorDatabase.add_documents texts embeddings metadatas ids hash = .error e) := by
  by_cases hE : texts = [] ∨ embeddings = []
  · have herr : ∀ ids' : Option (List String),
        VectorDatabase.add_documents texts embeddings metadatas ids' hash =
          .error "texts and embeddings cannot be empty" := by
      intro ids'; rw [VectorDatabase.add_documents.eq_def, if_pos hE]
    refine ⟨⟨fun _ => ?_, fun _ => ⟨_, herr ids⟩⟩, fun l hl => ?_,
      fun l₀ _ => Or.inr ⟨_, herr ids⟩⟩
    · rcases hE with h | h
      · exact Or.inl h
      · exact Or.inr (Or.inl h)
    · rw [herr none] at hl; cases hl
  · by_cases hLne : texts.length ≠ embeddings.length ∨ texts.length ≠ metadatas.length
    · have herr : ∀ ids' : Option (List String),
          VectorDatabase.add_documents texts embeddings metadatas ids' hash =
            .error "texts, embeddings, and metadatas must have the same length" := by
        intro ids'; rw [VectorDatabase.add_documents.eq_def, if_neg hE, if_pos hLne]
      refine ⟨⟨fun _ => ?_, fun _ => ⟨_, herr ids⟩⟩, fun l hl => ?_,
        fun l₀ _ => Or.inr ⟨_, herr ids⟩⟩
      · refine Or.inr (Or.inr ?_)
        rintro ⟨ha, hb⟩
        rcases hLne with h | h
        · exact h ha
        · exact h hb
      · rw [herr none] at hl; cases hl
    · push_neg at hLne
      have hok : VectorDatabase.add_documents texts embeddings metadatas none hash =
          .ok (VectorDatabase.autoIds texts metadatas hash) := by
        rw [VectorDatabase.add_documents.eq_def, if_neg hE, if_neg (by push_neg; exact hLne)]
      have hok2 : ∀ l₀,
          VectorDatabase.add_documents texts embeddings metadatas (some l₀) hash = .ok l₀ := by
        intro l₀
        rw [VectorDatabase.add_documents.eq_def, if_neg hE, if_neg (by push_neg; exact hLne)]
      refine ⟨⟨?_, ?_⟩, ?_, ?_⟩
      · rintro ⟨e, he⟩
        rcases ids with _ | l₀
        · rw [hok] at he; cases he
        · rw [hok2 l₀] at he; cases he
      · intro hR
        push_neg at hE
        rcases hR with h | h | h
        · exact absurd h hE.1
        · exact absurd h hE.2
        · exact absurd hLne h
      · intro l hl
        rw [hok] at hl
        injection hl with hl
        subst hl
        constructor
        · rw [VectorDatabase.autoIds, List.length_map, List.enum_length, List.length_zip,
            ← hLne.2]
          exact min_self _
        · intro i t md ht hm
          rw [VectorDatabase.autoIds, List.getElem?_map, List.getElem?_enum,
            zip_getElem?_of texts metadatas i t md ht hm]
          rfl
      · intro l₀ h0
        subst h0
        exact Or.inl (hok2 l₀)

/-- Claim C9 witness: empty inputs make add_documents raise. -/
theorem c9_witness :
    ∃ e, VectorDatabase.add_documents [] ([] : List (List ℚ)) [] none (fun _ => "h") =
      .error e :=
  (c9_add_documents_contract [] [] [] none (fun _ => "h")).1.mpr (Or.inl rfl)

/-- Claim C10: process_multiple_files returns only documents whose extracted
text is non-empty after stripping, skipping individual failures; it raises
exactly when the input list is non-empty and every file fails, and whenever
at least one file yields text it returns the collected results. -/
theorem c10_process_files_contract (files : List (Except String String)) :
    (∀ l, DocumentProcessor.process_multiple_files files = .ok l →
      ∀ t ∈ l, DocumentProcessor.strip t ≠ "") ∧
    ((∃ e, DocumentProcessor.process_multiple_files files = .error e) ↔
      (files ≠ [] ∧ ∀ f ∈ files, DocumentProcessor.file_fails f = true)) ∧
    ((∃ f ∈ files, DocumentProcessor.file_fails f = false) →
      DocumentProcessor.process_multiple_files files =
        .ok (files.filterMap DocumentProcessor.extract_ok)) := by
  have hmem : ∀ t ∈ files.filterMap DocumentProcessor.extract_ok,
      DocumentProcessor.strip t ≠ "" := by
    intro t ht
    rcases List.mem_filterMap.mp ht with ⟨f, _, hf⟩
    cases f with
    | error e => simp [DocumentProcessor.extract_ok] at hf
    | ok s =>
      rw [DocumentProcessor.extract_ok] at hf
      split at hf
      · next hs =>
        injection hf with hf
        subst hf
        exact hs
      · next => cases hf
  refine ⟨?_, ⟨?_, ?_⟩, ?_⟩
  · intro l hl
    rw [DocumentProcessor.process_multiple_files] at hl
    split at hl
    · cases hl
    · injection hl with hl
      subst hl
      exact hmem
  · rintro ⟨e, he⟩
    rw [DocumentProcessor.process_multiple_files] at he
    split at he
    · next hcond =>
      rw [Bool.and_eq_true] at hcond
      obtain ⟨h1, h2⟩ := hcond
      constructor
      · intro hfe
        subst hfe
        simp at h1
      · intro f hf
        have h2' : files.filterMap DocumentProcessor.extract_ok = [] := by
          simpa [List.isEmpty_iff] using h2
        have hnone := List.filterMap_eq_nil_iff.mp h2' f hf
        simp [DocumentProcessor.file_fails, hnone]
    · cases he
  · rintro ⟨hne, hall⟩
    have h1 : files.filter DocumentProcessor.file_fails = files :=
      List.filter_eq_self.mpr hall
    have h2 : files.filterMap DocumentProcessor.extract_ok = [] :=
      List.filterMap_eq_nil_iff.mpr (fun f hf => by
        have h := hall f hf
        rwa [DocumentProcessor.file_fails, Option.isNone_iff_eq_none] at h)
    refine ⟨"All files failed to process", ?_⟩
    simp only [DocumentProcessor.process_multiple_files]
    rw [h1, h2]
    simp [List.isEmpty_iff, hne]
  · rintro ⟨f0, hf0, hok⟩
    have hres : (files.filterMap DocumentProcessor.extract_ok).isEmpty = false := by
      rcases h : files.filterMap DocumentProcessor.extract_ok with _ | ⟨x, xs⟩
      · exfalso
        have hnone := List.filterMap_eq_nil_iff.mp h f0 hf0
        rw [DocumentProcessor.file_fails, hnone] at hok
        simp at hok
      · rfl
    simp only [DocumentProcessor.process_multiple_files]
    rw [hres, Bool.and_false]
    rfl

/-- Claim C10 witness: one readable file and one failing file yield the
readable document and no exception. -/
theorem c10_witness :
    DocumentProcessor.process_multiple_files [Except.ok "hello", Except.error "bad"] =
      .ok (List.filterMap DocumentProcessor.extract_ok
        [Except.ok "hello", Except.error "bad"]) :=
  (c10_process_files_contract _).2.2 ⟨Except.ok "hello", by simp, by decide⟩

end LabLens
